import Mathlib

/-!
Verification of the VisionGlove wearable controller against its design
specification.  The Python sources are shallowly embedded: pure numeric code
becomes functions over `ℚ` (or `ℝ` where transcendental functions appear),
stateful code becomes explicit state passing, and Python exceptions become
`Except`-style results.  Python instance attributes that shadow a same-named
method are modelled explicitly: an attribute lookup yields the stored value,
and "calling" a non-callable raises `TypeError`.
-/

namespace VisionGlove

/-! ## Threat level analysis — `VisionGloveSystem._analyze_threat_level`

Source (src/core/glove_system.py, lines 195–220):

    threat_level = 0
    if vision_data.get('person_count', 0) >= self.config.get('vision.person_threshold'):
        threat_level = max(threat_level, 1)  # Caution
    if sensor_data.get('unusual_movement', False):
        threat_level = max(threat_level, 2)  # Alert
    if sensor_data.get('emergency_gesture', False):
        threat_level = 3  # Emergency
    return threat_level
-/

/-- Embedding of `_analyze_threat_level`.  `personCount` is
`vision_data.get('person_count', 0)`, `personThreshold` the configured
`vision.person_threshold`, `unusualMovement` and `emergencyGesture` the two
boolean fields of the processed sensor data. -/
def analyzeThreatLevel (personCount personThreshold : ℤ)
    (unusualMovement emergencyGesture : Bool) : ℤ :=
  let t0 : ℤ := 0
  let t1 : ℤ := if personCount ≥ personThreshold then max t0 1 else t0
  let t2 : ℤ := if unusualMovement then max t1 2 else t1
  if emergencyGesture then 3 else t2

/-- The "triggered floor" contributed by the person-count signal. -/
def personFloor (personCount personThreshold : ℤ) : ℤ :=
  if personCount ≥ personThreshold then 1 else 0

/-- The "triggered floor" contributed by the unusual-movement signal. -/
def movementFloor (unusualMovement : Bool) : ℤ :=
  if unusualMovement then 2 else 0

/-- The "triggered floor" contributed by the emergency-gesture signal. -/
def gestureFloor (emergencyGesture : Bool) : ℤ :=
  if emergencyGesture then 3 else 0

/-- C2: `_analyze_threat_level` returns exactly the maximum of the triggered
floors: at least 1 when the person count reaches the configured threshold, at
least 2 when unusual movement is flagged, exactly 3 whenever the emergency
gesture is flagged, and 0 when no floor is triggered; in particular it is
monotone in its inputs — any input with the emergency gesture yields level 3. -/
theorem analyzeThreatLevel_max_of_floors (pc thr : ℤ) (u e : Bool) :
    analyzeThreatLevel pc thr u e =
      max (max (personFloor pc thr) (movementFloor u)) (gestureFloor e) ∧
    (e = true → analyzeThreatLevel pc thr u e = 3) ∧
    (u = true → 2 ≤ analyzeThreatLevel pc thr u e) ∧
    (pc ≥ thr → 1 ≤ analyzeThreatLevel pc thr u e) ∧
    (pc < thr → u = false → e = false → analyzeThreatLevel pc thr u e = 0) := by
  cases u <;> cases e <;>
    simp only [analyzeThreatLevel, personFloor, movementFloor, gestureFloor,
      if_true, if_false, Bool.true_eq_false, Bool.false_eq_true] <;>
    split_ifs <;> simp_all

/-- Witness for C2 at a concrete input: an emergency gesture alone forces
level 3. -/
theorem analyzeThreatLevel_max_of_floors_witness :
    analyzeThreatLevel 0 3 false true = 3 :=
  (analyzeThreatLevel_max_of_floors 0 3 false true).2.1 rfl

/-! ## Sensor processing — `SensorManager._process_sensor_data`

The IMU's `read()` (src/sensors/imu_sensor.py, lines 96–119) returns a nested
Python dict; `_process_sensor_data` (src/sensors/sensor_manager.py, lines
154–161) looks up `'acceleration'` with `.get` on the *top level* of that
dict.  Dicts are embedded as association lists so that `.get` misses are
modelled faithfully. -/

/-- A Python value as it appears in the sensor-data dictionaries. -/
inductive PyVal where
  | str (s : String)
  | rat (q : ℚ)
  | nums (xs : List ℚ)
  | dict (entries : List (String × PyVal))

/-- Embedding of `d.get(k)` on a Python dict: `none` when the key is absent. -/
def dictGet : PyVal → String → Option PyVal
  | .dict es, k => es.lookup k
  | _, _ => none

/-- Embedding of `d.get(k, dflt)` where the caller expects a list of numbers.  In every
reading produced by this program the key, when present, holds a `nums`
value. -/
def pyGetNums (v : PyVal) (k : String) (dflt : List ℚ) : List ℚ :=
  match dictGet v k with
  | some (.nums xs) => xs
  | _ => dflt

/-- The dictionary returned by `IMUSensor.read` (lines 96–119): acceleration
is nested under `'calibrated_data'`, not a top-level key. -/
def imuReadDict (ts : String) (rawAccel rawGyro rawMag : List ℚ)
    (accel gyro mag euler quat velocity position : List ℚ)
    (accelMag gyroMag : ℚ) : PyVal :=
  .dict [
    ("timestamp", .str ts),
    ("raw_data", .dict [
      ("accelerometer", .nums rawAccel),
      ("gyroscope", .nums rawGyro),
      ("magnetometer", .nums rawMag)]),
    ("calibrated_data", .dict [
      ("acceleration", .nums accel),
      ("angular_velocity", .nums gyro),
      ("magnetic_field", .nums mag)]),
    ("orientation", .dict [
      ("euler", .nums euler),
      ("quaternion", .nums quat)]),
    ("motion", .dict [
      ("velocity", .nums velocity),
      ("position", .nums position),
      ("acceleration_magnitude", .rat accelMag),
      ("angular_velocity_magnitude", .rat gyroMag)]),
    ("status", .str "ok")]

/-- Embedding of `SensorManager._detect_unusual_movement` (lines 206–225).  The source
compares `np.linalg.norm(acceleration) > 15.0`; for a nonnegative sum of
squares `s`, `sqrt s > 15 ↔ s > 225`, so the embedding compares the squared
magnitude against `225` to stay within `ℚ`. -/
def detectUnusualMovement (acceleration : List ℚ) : Bool :=
  if acceleration.isEmpty || acceleration.length != 3 then false
  else decide (225 < (acceleration.map fun x => x ^ 2).sum)

/-- The `processed['unusual_movement']` field computed by
`_process_sensor_data` (lines 154–161): the acceleration it feeds to
`_detect_unusual_movement` is `imu_data.get('acceleration', [0, 0, 0])`. -/
def processedUnusualMovement (imuData : PyVal) : Bool :=
  detectUnusualMovement (pyGetNums imuData "acceleration" [0, 0, 0])

/-- C4 (code bug): for every IMU reading — whatever calibrated acceleration
the read reports — the processed `unusual_movement` field is `false`, because
the top-level `'acceleration'` lookup misses (the key is nested under
`'calibrated_data'`) and the `[0,0,0]` default is used.  Yet
`_detect_unusual_movement` itself, given the reading's actual acceleration
`[20, 0, 0]` (magnitude 20 m/s² > 15), returns `true`: the claimed iff fails
at that input. -/
theorem processedUnusualMovement_always_false
    (ts : String) (rawAccel rawGyro rawMag : List ℚ)
    (accel gyro mag euler quat velocity position : List ℚ)
    (accelMag gyroMag : ℚ) :
    processedUnusualMovement
      (imuReadDict ts rawAccel rawGyro rawMag accel gyro mag euler quat
        velocity position accelMag gyroMag) = false ∧
    detectUnusualMovement [20, 0, 0] = true := by
  refine ⟨?_, ?_⟩
  · simp [processedUnusualMovement, pyGetNums, dictGet, imuReadDict,
      detectUnusualMovement, List.lookup]
  · simp only [detectUnusualMovement]
    norm_num

/-! ## Channel calibration — `PressureSensor` and `FlexSensor`

src/sensors/pressure_sensor.py lines 33–36 (initial fields), 156–170
(`_apply_calibration`), 270–278 (`set_sensitivity`);
src/sensors/flex_sensor.py lines 30–32, 122–142. -/

/-- Calibration fields of a `PressureSensor`.  `min_pressure` is set to `0.0`
in `__init__` and never reassigned anywhere in the repository. -/
structure PressureSensorState where
  minPressure : ℚ
  maxPressure : ℚ
  baseline : ℚ
  sensitivity : ℚ

/-- The field values bound in `PressureSensor.__init__` (lines 33–36). -/
def initPressureSensor : PressureSensorState :=
  { minPressure := 0.0, maxPressure := 1000.0, baseline := 0.0, sensitivity := 1.0 }

/-- Embedding of `PressureSensor._apply_calibration`:
`max(0.0, min(self.max_pressure, (raw - baseline) * sensitivity))`.
Note the lower clamp is the literal `0.0`, not `self.min_pressure`. -/
def applyPressureCalibration (st : PressureSensorState) (raw : ℚ) : ℚ :=
  max 0.0 (min st.maxPressure ((raw - st.baseline) * st.sensitivity))

/-- Embedding of `PressureSensor.set_sensitivity`: `max(0.1, min(10.0, sensitivity))` —
out-of-range requests are clamped, not rejected. -/
def setSensitivity (sensitivity : ℚ) : ℚ :=
  max 0.1 (min 10.0 sensitivity)

/-- Calibration fields of a `FlexSensor` (lines 30–32). -/
structure FlexSensorState where
  minValue : ℚ
  maxValue : ℚ
  baseline : ℚ

/-- The field values bound in `FlexSensor.__init__`. -/
def initFlexSensor : FlexSensorState :=
  { minValue := 0.0, maxValue := 1.0, baseline := 0.0 }

/-- Embedding of `FlexSensor._apply_calibration` (lines 122–142). -/
def applyFlexCalibration (st : FlexSensorState) (raw : ℚ) : ℚ :=
  let corrected := raw - st.baseline
  let normalized :=
    if st.maxValue ≠ st.minValue then
      (corrected - st.minValue) / (st.maxValue - st.minValue)
    else corrected
  max 0.0 (min 1.0 normalized)

/-- C8: for every raw input and configured sensitivity, the pressure channel's
calibrated value lies within `[min_pressure, max_pressure]` (with
`min_pressure = 0` as the constructor fixes and the code never changes), the
flex channel's within `[0, 1]`, and `set_sensitivity` clamps any request into
`[0.1, 10.0]`.  The apply step is a total function of its input — it cannot
raise. -/
theorem applyCalibration_clamping (stP : PressureSensorState)
    (stF : FlexSensorState) (rawP rawF s : ℚ)
    (hmin : stP.minPressure = 0) (hmax : 0 ≤ stP.maxPressure) :
    stP.minPressure ≤ applyPressureCalibration stP rawP ∧
    applyPressureCalibration stP rawP ≤ stP.maxPressure ∧
    0 ≤ applyFlexCalibration stF rawF ∧
    applyFlexCalibration stF rawF ≤ 1 ∧
    0.1 ≤ setSensitivity s ∧
    setSensitivity s ≤ 10 := by
  have h0 : (0.0 : ℚ) = 0 := by norm_num
  refine ⟨?_, ?_, ?_, ?_, ?_, ?_⟩
  · rw [hmin, applyPressureCalibration, h0]
    exact le_max_left 0 _
  · exact max_le (by simpa [h0] using hmax) (min_le_left _ _)
  · rw [applyFlexCalibration, h0]
    exact le_max_left 0 _
  · exact max_le (by norm_num) (le_trans (min_le_left _ _) (by norm_num))
  · exact le_max_left _ _
  · exact max_le (by norm_num) (le_trans (min_le_left _ _) (by norm_num))

/-- Witness for C8 at the constructor state and concrete raw inputs. -/
theorem applyCalibration_clamping_witness :
    initPressureSensor.minPressure ≤
        applyPressureCalibration initPressureSensor 2500 ∧
    applyPressureCalibration initPressureSensor 2500 ≤
        initPressureSensor.maxPressure ∧
    0 ≤ applyFlexCalibration initFlexSensor (-7) ∧
    applyFlexCalibration initFlexSensor (-7) ≤ 1 ∧
    0.1 ≤ setSensitivity 42 ∧
    setSensitivity 42 ≤ 10 :=
  applyCalibration_clamping initPressureSensor initFlexSensor 2500 (-7) 42
    (by norm_num [initPressureSensor]) (by norm_num [initPressureSensor])

/-! ## Emergency dispatcher — src/communications/emergency_dispatcher.py

State passing is explicit; a Python exception becomes an error value that the
surrounding `try/except` of `dispatch_emergency` turns into a `False` return.
Two Python facts are modelled directly:
* a `float` has no `strftime`, so `_generate_emergency_id` raises
  `AttributeError` on a `time.time()` timestamp;
* in `LivestreamService.__init__` the instance attribute
  `self.is_streaming = False` shadows the method `is_streaming` of the same
  name (instance attributes take precedence over class functions), so
  `self.livestream_service.is_streaming()` raises
  `TypeError: 'bool' object is not callable`. -/

/-- A Python exception, as far as the dispatcher's control flow needs it. -/
inductive PyErr where
  | typeError
  | attributeError
deriving DecidableEq

/-- The `timestamp` entry of `emergency_data`: either a `datetime` (split
into the second-resolution part formatted by `strftime('%Y%m%d_%H%M%S')` and
the `microsecond` field) or the plain float produced by `time.time()`. -/
inductive Timestamp where
  | datetime (second : ℕ) (microsecond : ℕ)
  | float (t : ℚ)
deriving DecidableEq

/-- An entry of an emergency record's `actions_taken` list. -/
inductive Action where
  | loggedEvent
  | smsSent (recipient : String) (success : Bool)
  | livestreamStarted (success : Bool)
  | policeAlertSent (recipient : String) (success : Bool)
  | emergencyLivestreamStarted (success : Bool)
deriving DecidableEq

/-- The emergency record dict created by `dispatch_emergency` (lines 86–95). -/
structure Emergency where
  id : String
  timestamp : Timestamp
  threatLevel : ℤ
  location : String
  actionsTaken : List Action
  status : String
deriving DecidableEq

/-- Dispatcher configuration fixed in `EmergencyDispatcher.__init__`
(lines 36–39) and by `stream_config.get('enabled', True)` (line 154). -/
structure DispatcherConfig where
  emergencyContacts : List String
  policeNumber : String
  autoResponseEnabled : Bool
  streamEnabled : Bool

/-- The dispatcher state mutated by `dispatch_emergency`, together with the
`is_streaming` instance attribute of its `LivestreamService`. -/
structure DispatcherState where
  currentEmergency : Option Emergency
  emergencyHistory : List Emergency
  streamIsStreaming : Bool
deriving DecidableEq

/-- The bound `self.max_history_size = 100` (line 34). -/
def maxHistorySize : ℕ := 100

/-- Embedding of `timestamp.strftime('%Y%m%d_%H%M%S')` as a function of the
second-resolution part of the datetime. -/
def strftimeSecond (second : ℕ) : String := toString second

/-- Embedding of `_generate_emergency_id` (lines 239–241):
`f"VG_{timestamp.strftime('%Y%m%d_%H%M%S')}_{hash(str(timestamp.microsecond)) % 1000:03d}"`.
`h` abstracts Python's process-randomized string hash reduced mod 1000.  A
float timestamp has no `strftime` attribute, so the call raises. -/
def generateEmergencyId (h : ℕ → Fin 1000) : Timestamp → Except PyErr String
  | .datetime s us => .ok ("VG_" ++ strftimeSecond s ++ "_" ++ toString (h us).val)
  | .float _ => .error .attributeError

/-- Embedding of `LivestreamService.start_emergency_stream` (livestream_service.py, lines
35–44): sets the `is_streaming` attribute to `True` and returns `True`.
Result is `(return value, new attribute value)`. -/
def startEmergencyStream (_streamAttr : Bool) : Bool × Bool := (true, true)

/-- Calling `self.livestream_service.is_streaming()`: the attribute (a bool)
shadows the method, so the call raises `TypeError`. -/
def livestreamIsStreamingCall (_streamAttr : Bool) : Except PyErr Bool :=
  .error .typeError

/-- Embedding of `emergency['actions_taken'].append(...)`. -/
def appendAction (em : Emergency) (a : Action) : Emergency :=
  { em with actionsTaken := em.actionsTaken ++ [a] }

/-- Embedding of `_handle_caution_level` (lines 120–132): logs the event.
`_prepare_emergency_systems` touches no dispatcher state and catches its own
exceptions (lines 192–202). -/
def handleCautionLevel (em : Emergency) : Emergency :=
  appendAction em .loggedEvent

/-- Python's `str.strip()`: drop whitespace from both ends. -/
def pyStrip (s : String) : String :=
  ⟨((s.data.dropWhile Char.isWhitespace).reverse.dropWhile
      Char.isWhitespace).reverse⟩

/-- The `for contact in self.emergency_contacts` loop of
`_handle_alert_level` (lines 142–151): each contact is stripped, empty ones
are skipped, and every attempted send is logged with its own outcome. -/
def sendContactAlerts (sms : String → Bool) (contacts : List String)
    (em : Emergency) : Emergency :=
  contacts.foldl (fun e c =>
    let c := pyStrip c
    if c ≠ "" then appendAction e (.smsSent c (sms c)) else e) em

/-- Embedding of `_handle_alert_level` (lines 134–160).  Result is
`(record, stream attribute)`. -/
def handleAlertLevel (cfg : DispatcherConfig) (sms : String → Bool)
    (em : Emergency) (streamAttr : Bool) : Emergency × Bool :=
  let em :=
    if !cfg.emergencyContacts.isEmpty && cfg.autoResponseEnabled then
      sendContactAlerts sms cfg.emergencyContacts em
    else em
  if cfg.streamEnabled then
    let r := startEmergencyStream streamAttr
    (appendAction em (.livestreamStarted r.1), r.2)
  else (em, streamAttr)

/-- Embedding of `_handle_emergency_level` (lines 162–190).  Result is
`(record, stream attribute, raised exception if any)`; the record and stream
state carry every mutation made before the raise. -/
def handleEmergencyLevel (cfg : DispatcherConfig) (sms : String → Bool)
    (em : Emergency) (streamAttr : Bool) : Emergency × Bool × Option PyErr :=
  let em :=
    if cfg.policeNumber != "" && cfg.autoResponseEnabled then
      appendAction em (.policeAlertSent cfg.policeNumber (sms cfg.policeNumber))
    else em
  match livestreamIsStreamingCall streamAttr with
  | .error e => (em, streamAttr, some e)
  | .ok isStr =>
    if !isStr then
      let r := startEmergencyStream streamAttr
      (appendAction em (.emergencyLivestreamStarted r.1), r.2, none)
    else (em, streamAttr, none)

/-- The `emergency_data` dictionary fields `dispatch_emergency` reads. -/
structure EmergencyData where
  threatLevel : ℤ
  timestamp : Timestamp
  location : String

/-- Embedding of `dispatch_emergency` (lines 69–118).  The record is created (its id
generated), stored in `current_emergency`, mutated by the level handlers, and
appended to the bounded history; any exception reaches the top-level
`try/except` and yields `False`, with every mutation made before the raise
still visible (the handlers mutate the already-stored record in place). -/
def dispatchEmergency (h : ℕ → Fin 1000) (cfg : DispatcherConfig)
    (sms : String → Bool) (st : DispatcherState) (data : EmergencyData) :
    Bool × DispatcherState :=
  match generateEmergencyId h data.timestamp with
  | .error _ => (false, st)
  | .ok id =>
    let em : Emergency :=
      { id := id, timestamp := data.timestamp,
        threatLevel := data.threatLevel, location := data.location,
        actionsTaken := [], status := "active" }
    let em := if data.threatLevel ≥ 1 then handleCautionLevel em else em
    let p :=
      if data.threatLevel ≥ 2 then
        handleAlertLevel cfg sms em st.streamIsStreaming
      else (em, st.streamIsStreaming)
    let q :=
      if data.threatLevel ≥ 3 then
        handleEmergencyLevel cfg sms p.1 p.2
      else (p.1, p.2, none)
    match q.2.2 with
    | some _ =>
      (false, { currentEmergency := some q.1,
                emergencyHistory := st.emergencyHistory,
                streamIsStreaming := q.2.1 })
    | none =>
      let hist := st.emergencyHistory ++ [q.1]
      let hist := if hist.length > maxHistorySize then hist.drop 1 else hist
      (true, { currentEmergency := some q.1, emergencyHistory := hist,
               streamIsStreaming := q.2.1 })

/-- C3: a `dispatch_emergency` call whose `emergency_data` timestamp is a
float (as `_handle_threat_change` passes via `time.time()`) returns `False`
and leaves the dispatcher state — current emergency, history, and livestream
— completely unchanged: id generation needs `datetime.strftime`, and its
`AttributeError` aborts the dispatch before any state change. -/
theorem dispatch_float_timestamp_aborts (h : ℕ → Fin 1000)
    (cfg : DispatcherConfig) (sms : String → Bool) (st : DispatcherState)
    (level : ℤ) (t : ℚ) (loc : String) :
    dispatchEmergency h cfg sms st
      { threatLevel := level, timestamp := .float t, location := loc } =
      (false, st) := by
  simp [dispatchEmergency, generateEmergencyId]

/-- C1 (code bug), evaluated at a failing input: a level-3 dispatch with
police number `"911"` configured, auto-response enabled, livestream disabled
in config, and no stream running.  Exactly one police-SMS attempt is logged,
but then the ensure-running step `livestream_service.is_streaming()` raises
`TypeError` (the bool attribute shadows the method), so the dispatch aborts:
it returns `False`, the record never reaches the history, and the livestream
is NOT active at the end — contradicting "at the end of the dispatch the
livestream is active". -/
theorem dispatch_emergency_level_crashes_ensure_step :
    dispatchEmergency (fun _ => (0 : Fin 1000))
      { emergencyContacts := [""], policeNumber := "911",
        autoResponseEnabled := true, streamEnabled := false }
      (fun _ => true)
      { currentEmergency := none, emergencyHistory := [],
        streamIsStreaming := false }
      { threatLevel := 3, timestamp := .datetime 20250101 0,
        location := "Unknown" } =
    (false,
      { currentEmergency := some
          { id := "VG_20250101_0", timestamp := .datetime 20250101 0,
            threatLevel := 3, location := "Unknown",
            actionsTaken := [.loggedEvent, .policeAlertSent "911" true],
            status := "active" },
        emergencyHistory := [],
        streamIsStreaming := false }) := by decide

/-- C5 (code bug): emergency-ID generation is not injective within a session.
Two successive dispatches whose `emergency_data` timestamps are the same
datetime (as happens when `datetime.now()` returns the same microsecond, or
when the caller supplies the timestamp) both create records, and the two
records — distinct entries of the history — carry the *same* id, whatever
Python's randomized string hash does.  Moreover, for any hash, pigeonhole
over the 1000 possible `hash(str(microsecond)) % 1000` buckets gives two
distinct microseconds in the same second whose generated ids collide. -/
theorem emergencyId_collision (h : ℕ → Fin 1000) (cfg : DispatcherConfig)
    (sms : String → Bool) :
    (let st0 : DispatcherState := ⟨none, [], false⟩
     let dataA : EmergencyData := ⟨0, .datetime 20250101 123456, "site A"⟩
     let dataB : EmergencyData := ⟨0, .datetime 20250101 123456, "site B"⟩
     let r1 := dispatchEmergency h cfg sms st0 dataA
     let r2 := dispatchEmergency h cfg sms r1.2 dataB
     r1.1 = true ∧ r2.1 = true ∧
     ∃ e1 e2, r2.2.emergencyHistory = [e1, e2] ∧ e1.id = e2.id ∧
       e1.location ≠ e2.location) ∧
    ∀ second : ℕ, ∃ u1 u2 : ℕ, u1 ≠ u2 ∧ u1 < 1000000 ∧ u2 < 1000000 ∧
      generateEmergencyId h (.datetime second u1) =
        generateEmergencyId h (.datetime second u2) := by
  constructor
  · refine ⟨rfl, rfl,
      ⟨{ id := "VG_" ++ strftimeSecond 20250101 ++ "_" ++
             toString (h 123456).val,
         timestamp := .datetime 20250101 123456, threatLevel := 0,
         location := "site A", actionsTaken := [], status := "active" },
       { id := "VG_" ++ strftimeSecond 20250101 ++ "_" ++
             toString (h 123456).val,
         timestamp := .datetime 20250101 123456, threatLevel := 0,
         location := "site B", actionsTaken := [], status := "active" },
       rfl, rfl, fun hc => by simp at hc⟩⟩
  · intro second
    have hcard : (Finset.univ : Finset (Fin 1000)).card <
        (Finset.range 1001).card := by
      rw [Finset.card_range, Finset.card_univ, Fintype.card_fin]
      norm_num
    obtain ⟨u1, hu1, u2, hu2, hne, heq⟩ :=
      Finset.exists_ne_map_eq_of_card_lt_of_maps_to hcard
        (fun a _ => Finset.mem_univ (h a))
    refine ⟨u1, u2, hne, ?_, ?_, ?_⟩
    · exact lt_of_lt_of_le (Finset.mem_range.mp hu1) (by norm_num)
    · exact lt_of_lt_of_le (Finset.mem_range.mp hu2) (by norm_num)
    · simp [generateEmergencyId, heq]

/-- The SMS attempts the alert-level contact loop makes: one per contact
that is nonempty after stripping, in list order, each with its own outcome. -/
def contactAttempts (sms : String → Bool) (contacts : List String) :
    List Action :=
  contacts.filterMap fun c =>
    let c := pyStrip c
    if c ≠ "" then some (.smsSent c (sms c)) else none

/-- The contact loop appends exactly the attempt log to the record, touching
nothing else. -/
theorem sendContactAlerts_eq (sms : String → Bool) (contacts : List String) :
    ∀ em : Emergency, sendContactAlerts sms contacts em =
      { em with actionsTaken :=
          em.actionsTaken ++ contactAttempts sms contacts } := by
  induction contacts with
  | nil => intro em; simp [sendContactAlerts, contactAttempts]
  | cons c cs ih =>
    intro em
    have step : sendContactAlerts sms (c :: cs) em =
        sendContactAlerts sms cs
          (if pyStrip c ≠ "" then
            appendAction em (.smsSent (pyStrip c) (sms (pyStrip c)))
          else em) := rfl
    rw [step, ih]
    by_cases hc : pyStrip c = ""
    · simp [contactAttempts, List.filterMap_cons, hc]
    · simp [contactAttempts, List.filterMap_cons, hc, appendAction,
        List.append_assoc]

/-- C7: during an alert-level dispatch with auto-response on and streaming
enabled, for ANY per-recipient outcome function `sms` — including ones that
fail for some contacts — every contact that is nonempty after stripping is
attempted exactly once in order, each outcome is appended to the record's
action log, and the livestream start step still executes afterwards and
leaves the stream running.  A failed send thus cannot suppress later sends or
the livestream start. -/
theorem alertLevel_partial_failure_isolation (cfg : DispatcherConfig)
    (sms : String → Bool) (em : Emergency) (streamAttr : Bool)
    (hauto : cfg.autoResponseEnabled = true)
    (hstream : cfg.streamEnabled = true)
    (hcontacts : cfg.emergencyContacts ≠ []) :
    (handleAlertLevel cfg sms em streamAttr).1.actionsTaken =
      em.actionsTaken ++ contactAttempts sms cfg.emergencyContacts ++
        [.livestreamStarted true] ∧
    (handleAlertLevel cfg sms em streamAttr).2 = true := by
  have hiE : cfg.emergencyContacts.isEmpty = false := by
    cases hl : cfg.emergencyContacts with
    | nil => exact absurd hl hcontacts
    | cons a l => rfl
  constructor <;>
    simp [handleAlertLevel, hauto, hstream, hiE, startEmergencyStream,
      sendContactAlerts_eq, appendAction, List.append_assoc]

/-- An example config for the C7 witness: two real contacts around a
whitespace-only entry, no police number. -/
def alertCfgExample : DispatcherConfig :=
  { emergencyContacts := ["alice", " ", "bob"], policeNumber := "",
    autoResponseEnabled := true, streamEnabled := true }

/-- A fresh emergency record for the C7 witness. -/
def emergencyExample : Emergency :=
  { id := "VG_1_0", timestamp := .datetime 1 0, threatLevel := 2,
    location := "loc", actionsTaken := [], status := "active" }

/-- Witness for C7 at a concrete input: the send to `"alice"` fails, yet
`"bob"` is still attempted (and succeeds), both outcomes are logged, and the
livestream starts. -/
theorem alertLevel_partial_failure_isolation_witness :
    (handleAlertLevel alertCfgExample (fun c => c == "bob")
        emergencyExample false).1.actionsTaken =
      [.smsSent "alice" false, .smsSent "bob" true,
       .livestreamStarted true] ∧
    (handleAlertLevel alertCfgExample (fun c => c == "bob")
        emergencyExample false).2 = true := by
  have hth := alertLevel_partial_failure_isolation alertCfgExample
    (fun c => c == "bob") emergencyExample false rfl rfl (by decide)
  exact ⟨hth.1.trans (by decide), hth.2⟩

/-! ## System status query — `VisionGloveSystem.get_status`

src/core/glove_system.py, lines 247–267.  Three of the four subsystem
constructors bind an instance attribute `self.is_active = False`
(sensor_manager.py line 25, vision_processor.py line 27,
emergency_dispatcher.py line 25) of the same name as their `is_active()`
method; the attribute shadows the method, so `subsystem.is_active()` calls a
bool.  `HapticController` is the exception: its constructor binds
`is_initialized` (haptic_controller.py line 16), never `is_active`, so its
`is_active()` method (line 57) is not shadowed and returns
`self.is_initialized` without raising. -/

/-- Calling `obj.is_active()` when the instance attribute `is_active` (a
bool) shadows the method: `TypeError: 'bool' object is not callable`. -/
def isActiveCall (_attr : Bool) : Except PyErr Bool :=
  .error .typeError

/-- Calling `haptic_controller.is_active()`: no attribute shadows this
method, so it returns `self.is_initialized` normally. -/
def hapticIsActiveCall (isInitialized : Bool) : Except PyErr Bool :=
  .ok isInitialized

/-- Evaluation of `subsystem is not None and subsystem.is_active()` for the
three shadowed subsystems: short-circuits to `False` when the subsystem was
never constructed, otherwise calls the attribute.  The argument is `none`
for an unconstructed subsystem, or `some attr` with the boolean value of its
`is_active` attribute. -/
def subsystemStatus : Option Bool → Except PyErr Bool
  | none => .ok false
  | some attr => isActiveCall attr

/-- Evaluation of
`self.haptic_controller is not None and self.haptic_controller.is_active()`:
the haptics method is not shadowed, so a constructed controller reports its
`is_initialized` flag. -/
def hapticSubsystemStatus : Option Bool → Except PyErr Bool
  | none => .ok false
  | some isInitialized => hapticIsActiveCall isInitialized

/-- The dictionary `get_status` returns when no exception interrupts it. -/
structure SystemStatus where
  running : Bool
  uptime : ℚ
  threatLevel : ℤ
  lastUpdate : Option ℚ
  sensors : Bool
  vision : Bool
  haptics : Bool
  emergency : Bool
deriving DecidableEq

/-- Embedding of `get_status` (lines 247–267): builds the status dict, evaluating the four
subsystem entries in order; an exception in any of them propagates to the
caller.  Sensors, vision, and emergency go through the shadowed-attribute
call; haptics through its intact method. -/
def getStatus (running : Bool) (uptime : ℚ) (threatLevel : ℤ)
    (lastUpdate : Option ℚ)
    (sensors vision haptics emergency : Option Bool) :
    Except PyErr SystemStatus :=
  match subsystemStatus sensors with
  | .error e => .error e
  | .ok s =>
    match subsystemStatus vision with
    | .error e => .error e
    | .ok v =>
      match hapticSubsystemStatus haptics with
      | .error e => .error e
      | .ok ha =>
        match subsystemStatus emergency with
        | .error e => .error e
        | .ok em =>
          .ok { running := running, uptime := uptime,
                threatLevel := threatLevel, lastUpdate := lastUpdate,
                sensors := s, vision := v, haptics := ha, emergency := em }

/-- C6 (code bug): whenever at least one of the sensor manager, vision
processor, or emergency dispatcher has been constructed — and after
`initialize()` the emergency dispatcher always is — `get_status` does not
return a dictionary at all: it raises `TypeError`, because in those three
constructors the boolean instance attribute `is_active` shadows the
`is_active()` method the status query calls.  (The haptic controller alone
does not shadow its method, so it cannot save the claim.) -/
theorem getStatus_raises_when_subsystem_constructed (running : Bool)
    (uptime : ℚ) (threatLevel : ℤ) (lastUpdate : Option ℚ)
    (sensors vision haptics emergency : Option Bool)
    (hconstructed : sensors ≠ none ∨ vision ≠ none ∨ emergency ≠ none) :
    getStatus running uptime threatLevel lastUpdate
      sensors vision haptics emergency = .error .typeError := by
  cases sensors <;> cases vision <;> cases haptics <;> cases emergency <;>
    simp_all [getStatus, subsystemStatus, hapticSubsystemStatus,
      isActiveCall, hapticIsActiveCall]

/-- Witness for C6 at a concrete input: after initialization the emergency
dispatcher always exists (its `is_active` attribute is `True`), so the status
query raises. -/
theorem getStatus_raises_witness :
    getStatus true 5 0 (some 10) none none none (some true) =
      .error .typeError :=
  getStatus_raises_when_subsystem_constructed true 5 0 (some 10)
    none none none (some true) (by simp)

/-! ## IMU orientation fusion — src/sensors/imu_sensor.py

`_update_orientation` (lines 199–237) and `_euler_to_quaternion` (lines
239–255) compute with Python floats; they are embedded over `ℝ`.  The
normalization loops

    while self.orientation[i] > 180: self.orientation[i] -= 360
    while self.orientation[i] < -180: self.orientation[i] += 360

become well-founded recursions; their termination proofs are the embedding
of the loops' termination. -/

/-- The first normalization loop: `while angle > 180: angle -= 360`. -/
noncomputable def wrapDown (x : ℝ) : ℝ :=
  if h : 180 < x then wrapDown (x - 360) else x
termination_by (⌈(x - 180) / 360⌉).toNat
decreasing_by
  have hpos : (0:ℝ) < (x - 180) / 360 := div_pos (by linarith) (by norm_num)
  have h1 : 0 < ⌈(x - 180) / 360⌉ := Int.ceil_pos.mpr hpos
  have h2 : (x - 360 - 180) / 360 = (x - 180) / 360 - 1 := by ring
  rw [h2, Int.ceil_sub_one]
  omega

/-- The second normalization loop: `while angle < -180: angle += 360`. -/
noncomputable def wrapUp (x : ℝ) : ℝ :=
  if h : x < -180 then wrapUp (x + 360) else x
termination_by (⌈(-180 - x) / 360⌉).toNat
decreasing_by
  have hpos : (0:ℝ) < (-180 - x) / 360 := div_pos (by linarith) (by norm_num)
  have h1 : 0 < ⌈(-180 - x) / 360⌉ := Int.ceil_pos.mpr hpos
  have h2 : (-180 - (x + 360)) / 360 = (-180 - x) / 360 - 1 := by ring
  rw [h2, Int.ceil_sub_one]
  omega

/-- The two loops run in sequence on each angle (lines 230–234). -/
noncomputable def normalizeAngle (x : ℝ) : ℝ := wrapUp (wrapDown x)

theorem wrapDown_le (x : ℝ) : wrapDown x ≤ 180 := by
  induction x using wrapDown.induct with
  | case1 x h ih => rw [wrapDown, dif_pos h]; exact ih
  | case2 x h => rw [wrapDown, dif_neg h]; linarith

theorem wrapDown_sub_mul (x : ℝ) : ∃ k : ℤ, wrapDown x = x - 360 * k := by
  induction x using wrapDown.induct with
  | case1 x h ih =>
    obtain ⟨k, hk⟩ := ih
    exact ⟨k + 1, by rw [wrapDown, dif_pos h, hk]; push_cast; ring⟩
  | case2 x h => exact ⟨0, by rw [wrapDown, dif_neg h]; push_cast; ring⟩

theorem wrapUp_ge (x : ℝ) : -180 ≤ wrapUp x := by
  induction x using wrapUp.induct with
  | case1 x h ih => rw [wrapUp, dif_pos h]; exact ih
  | case2 x h => rw [wrapUp, dif_neg h]; linarith

theorem wrapUp_le (x : ℝ) : x ≤ 180 → wrapUp x ≤ 180 := by
  induction x using wrapUp.induct with
  | case1 x h ih =>
    intro _
    rw [wrapUp, dif_pos h]
    exact ih (by linarith)
  | case2 x h =>
    intro hx
    rw [wrapUp, dif_neg h]
    exact hx

theorem wrapUp_sub_mul (x : ℝ) : ∃ k : ℤ, wrapUp x = x - 360 * k := by
  induction x using wrapUp.induct with
  | case1 x h ih =>
    obtain ⟨k, hk⟩ := ih
    exact ⟨k - 1, by rw [wrapUp, dif_pos h, hk]; push_cast; ring⟩
  | case2 x h => exact ⟨0, by rw [wrapUp, dif_neg h]; push_cast; ring⟩

/-- C10 counterexample: the fused angle `-540°` (reachable, e.g., by gyro
integration) normalizes to exactly `-180°`, which is NOT in the half-open
interval `(-180°, 180°]` the claim asserts: the second loop's guard is the
strict `< -180`, so `-180` itself survives. -/
theorem normalizeAngle_hits_neg180 :
    normalizeAngle (-540) = -180 ∧
    (-180 : ℝ) ∉ Set.Ioc (-180 : ℝ) 180 := by
  constructor
  · have h1 : wrapDown (-540 : ℝ) = -540 := by
      rw [wrapDown, dif_neg (by norm_num : ¬(180:ℝ) < -540)]
    have h2 : wrapUp (-540 : ℝ) = wrapUp (-180) := by
      rw [wrapUp, dif_pos (by norm_num : (-540:ℝ) < -180)]
      norm_num
    have h3 : wrapUp (-180 : ℝ) = -180 := by
      rw [wrapUp, dif_neg (by norm_num : ¬(-180:ℝ) < -180)]
    rw [normalizeAngle, h1, h2, h3]
  · simp

/-- C10 (amended): for every angle value, the normalization terminates (it is
a total function) and yields a value in the CLOSED interval `[-180°, 180°]`
differing from the input by an integer multiple of 360°; the endpoint `-180`
is attainable, so the interval cannot be sharpened to `(-180°, 180°]`. -/
theorem normalizeAngle_range_and_congruence (x : ℝ) :
    normalizeAngle x ∈ Set.Icc (-180 : ℝ) 180 ∧
    ∃ k : ℤ, normalizeAngle x = x - 360 * k := by
  refine ⟨⟨wrapUp_ge _, wrapUp_le _ (wrapDown_le x)⟩, ?_⟩
  obtain ⟨k1, hk1⟩ := wrapDown_sub_mul x
  obtain ⟨k2, hk2⟩ := wrapUp_sub_mul (wrapDown x)
  refine ⟨k1 + k2, ?_⟩
  rw [normalizeAngle, hk2, hk1]
  push_cast
  ring

/-- Embedding of `math.atan2(y, x)` over the reals (quadrant-aware arctangent).  Only its
totality matters for the claims below; its value never does. -/
noncomputable def atan2 (y x : ℝ) : ℝ :=
  if 0 < x then Real.arctan (y / x)
  else if x < 0 then
    (if 0 ≤ y then Real.arctan (y / x) + Real.pi
     else Real.arctan (y / x) - Real.pi)
  else
    (if 0 < y then Real.pi / 2 else if y < 0 then -(Real.pi / 2) else 0)

/-- The `FusedState` fields `_update_orientation` touches:
`self.orientation = [roll, pitch, yaw]` (degrees) and
`self.quaternion = [w, x, y, z]`. -/
structure OrientationState where
  orientation : ℝ × ℝ × ℝ
  quaternion : ℝ × ℝ × ℝ × ℝ

/-- Embedding of `_euler_to_quaternion` (lines 239–255): converts the current Euler
angles (degrees) to a quaternion via half-angle sines/cosines — the standard
ZYX (yaw-pitch-roll) convention. -/
noncomputable def eulerToQuaternion (o : ℝ × ℝ × ℝ) : ℝ × ℝ × ℝ × ℝ :=
  let roll := o.1 * Real.pi / 180
  let pitch := o.2.1 * Real.pi / 180
  let yaw := o.2.2 * Real.pi / 180
  let cr := Real.cos (roll * 0.5)
  let sr := Real.sin (roll * 0.5)
  let cp := Real.cos (pitch * 0.5)
  let sp := Real.sin (pitch * 0.5)
  let cy := Real.cos (yaw * 0.5)
  let sy := Real.sin (yaw * 0.5)
  (cr * cp * cy + sr * sp * sy,
   sr * cp * cy - cr * sp * sy,
   cr * sp * cy + sr * cp * sy,
   cr * cp * sy - sr * sp * cy)

/-- Embedding of `_update_orientation` (lines 199–237): complementary filter with
α = 0.98, normalization of each fused angle, then quaternion re-derivation.
The magnetometer argument is read but unused by the filter, exactly as in
the source. -/
noncomputable def updateOrientation (st : OrientationState)
    (accel gyro mag : ℝ × ℝ × ℝ) (dt : ℝ) : OrientationState :=
  let accelRoll := atan2 accel.2.1 accel.2.2 * 180 / Real.pi
  let accelPitch :=
    atan2 (-accel.1) (Real.sqrt (accel.2.1 ^ 2 + accel.2.2 ^ 2)) * 180 /
      Real.pi
  let gyroRoll := st.orientation.1 + gyro.1 * dt * 180 / Real.pi
  let gyroPitch := st.orientation.2.1 + gyro.2.1 * dt * 180 / Real.pi
  let gyroYaw := st.orientation.2.2 + gyro.2.2 * dt * 180 / Real.pi
  let alpha : ℝ := 0.98
  let o := (normalizeAngle (alpha * gyroRoll + (1 - alpha) * accelRoll),
            normalizeAngle (alpha * gyroPitch + (1 - alpha) * accelPitch),
            normalizeAngle gyroYaw)
  { orientation := o, quaternion := eulerToQuaternion o }

/-- Squared Euclidean norm of a quaternion `(w, x, y, z)`. -/
def quatNormSq (q : ℝ × ℝ × ℝ × ℝ) : ℝ :=
  q.1 ^ 2 + q.2.1 ^ 2 + q.2.2.1 ^ 2 + q.2.2.2 ^ 2

/-- Algebraic core of the unit-norm property: the four half-angle products
have squares summing to `(sr²+cr²)(sp²+cp²)(sy²+cy²) = 1`. -/
theorem quatProducts_sq_sum (r p y : ℝ) :
    (Real.cos r * Real.cos p * Real.cos y +
        Real.sin r * Real.sin p * Real.sin y) ^ 2 +
    (Real.sin r * Real.cos p * Real.cos y -
        Real.cos r * Real.sin p * Real.sin y) ^ 2 +
    (Real.cos r * Real.sin p * Real.cos y +
        Real.sin r * Real.cos p * Real.sin y) ^ 2 +
    (Real.cos r * Real.cos p * Real.sin y -
        Real.sin r * Real.sin p * Real.cos y) ^ 2 = 1 := by
  have hr := Real.sin_sq_add_cos_sq r
  have hp := Real.sin_sq_add_cos_sq p
  have hy := Real.sin_sq_add_cos_sq y
  linear_combination
    (Real.sin p ^ 2 + Real.cos p ^ 2) *
        (Real.sin y ^ 2 + Real.cos y ^ 2) * hr +
      (Real.sin y ^ 2 + Real.cos y ^ 2) * hp + hy

/-- Any quaternion produced by `_euler_to_quaternion` has unit norm —
exactly 1 over the reals. -/
theorem eulerToQuaternion_normSq (o : ℝ × ℝ × ℝ) :
    quatNormSq (eulerToQuaternion o) = 1 := by
  have h := quatProducts_sq_sum (o.1 * Real.pi / 180 * 0.5)
    (o.2.1 * Real.pi / 180 * 0.5) (o.2.2 * Real.pi / 180 * 0.5)
  simp only [eulerToQuaternion, quatNormSq]
  linear_combination h

/-- C9: after every fusion update the stored quaternion is exactly the
ZYX-convention quaternion re-derived from the just-fused (and normalized)
Euler angles — never a value carried over from a previous step — and
therefore has unit norm (exactly 1 over the reals; the 1e-6 tolerance of the
claim is the floating-point reading of the same fact). -/
theorem updateOrientation_quaternion_rederived (st : OrientationState)
    (accel gyro mag : ℝ × ℝ × ℝ) (dt : ℝ) :
    (updateOrientation st accel gyro mag dt).quaternion =
      eulerToQuaternion (updateOrientation st accel gyro mag dt).orientation ∧
    quatNormSq (updateOrientation st accel gyro mag dt).quaternion = 1 :=
  ⟨rfl, eulerToQuaternion_normSq _⟩

end VisionGlove
